import Mathlib

/-!
Verification of a local coding agent (workspace sandbox tools, shell policy
guard, and orchestrator action loop) against its natural-language
specification.

The Python source is shallowly embedded: strings are modeled as `List Char`
(`Str`), filesystem paths as lists of components, the filesystem as an
association list from absolute paths to file contents, and every fallible
operation returns `Except`.  External effects (the language-model client, the
shell, the external `rg` matcher) appear as explicit oracle parameters or as
definitions modeled from the specification where noted.
-/

namespace CodingAgent

/-- Strings are modeled as lists of characters (Python `str`, ASCII range). -/
abbrev Str := List Char

/-- Python `\s` for ASCII text: space, tab, newline, carriage return,
vertical tab, form feed. -/
def isPySpace (c : Char) : Bool :=
  c = ' ' ∨ c = '\t' ∨ c = '\n' ∨ c = '\r' ∨ c = '\x0b' ∨ c = '\x0c'

/-- Python `\w` for ASCII text: letters, digits, underscore. -/
def isWordChar (c : Char) : Bool :=
  c.isAlpha ∨ c.isDigit ∨ c = '_'

/-- Python `str.strip()`: remove leading and trailing whitespace. -/
def pyStrip (s : Str) : Str :=
  ((s.dropWhile isPySpace).reverse.dropWhile isPySpace).reverse

/-- Python `str.lower()` for ASCII text. -/
def toLowerStr (s : Str) : Str := s.map Char.toLower

/-- Python `needle in haystack` (substring containment). -/
def containsSub (needle : Str) : Str → Bool
  | [] => needle.isPrefixOf []
  | c :: rest => needle.isPrefixOf (c :: rest) || containsSub needle rest

/-- Python `s[-n:]` (the last `n` characters). -/
def pyTakeLast (n : Nat) (s : Str) : Str := s.drop (s.length - n)

/-- Clipping used by the orchestrator: `_clip(text, max_chars)` keeps the text
if it fits, else truncates and appends a marker. -/
def clipStr (s : Str) (maxChars : Nat) : Str :=
  if s.length ≤ maxChars then s else s.take maxChars ++ ("...(truncated)").toList

/-- Number of bytes of the UTF-8 encoding of one character
(Python `len(text.encode("utf-8"))` summand). -/
def charUtf8Len (c : Char) : Nat :=
  if c.val < 0x80 then 1
  else if c.val < 0x800 then 2
  else if c.val < 0x10000 then 3
  else 4

/-- Python `len(text.encode("utf-8"))`. -/
def utf8Len (s : Str) : Nat := s.foldl (fun n c => n + charUtf8Len c) 0

/-- Python `haystack.count(needle)` for a nonempty needle: the number of
non-overlapping occurrences, scanning left to right.  The `fuel` argument
makes the recursion structural; every step consumes at least one character,
so `fuel = length` is always enough. -/
def countOccsAux (find : Str) : Nat → Str → Nat
  | 0, _ => 0
  | _, [] => 0
  | fuel + 1, c :: rest =>
    if find ≠ [] ∧ find.isPrefixOf (c :: rest) then
      countOccsAux find fuel (rest.drop (find.length - 1)) + 1
    else
      countOccsAux find fuel rest

/-- Python `haystack.count(needle)` for a nonempty needle. -/
def countOccs (find s : Str) : Nat := countOccsAux find s.length s

/-- Python `haystack.replace(find, repl)` for a nonempty `find`: replace
each non-overlapping occurrence, scanning left to right (structural via the
same fuel device as `countOccsAux`). -/
def replaceAllAux (find repl : Str) : Nat → Str → Str
  | 0, s => s
  | _, [] => []
  | fuel + 1, c :: rest =>
    if find ≠ [] ∧ find.isPrefixOf (c :: rest) then
      repl ++ replaceAllAux find repl fuel (rest.drop (find.length - 1))
    else
      c :: replaceAllAux find repl fuel rest

/-- Python `haystack.replace(find, repl)` for a nonempty `find`. -/
def replaceAll (find repl s : Str) : Str := replaceAllAux find repl s.length s

/-- Python `str.splitlines()` restricted to `\n` separators: the final
segment is kept only when nonempty, so a trailing newline adds no line. -/
def pySplitlines : Str → List Str
  | [] => []
  | c :: rest =>
    if c = '\n' then
      [] :: pySplitlines rest
    else
      match pySplitlines rest with
      | [] => [[c]]
      | l :: ls => (c :: l) :: ls

/-- Python `"\n".join(lines)`. -/
def joinLines : List Str → Str
  | [] => []
  | [l] => l
  | l :: ls => l ++ '\n' :: joinLines ls

/-- Python list slice `xs[a:b]` for `0 ≤ a ≤ b`. -/
def pySlice (a b : Nat) (xs : List Str) : List Str :=
  (xs.drop a).take (b - a)

/-- Split a string at the first occurrence of `ch`
(Python `s.split(ch, 1)` when `ch` occurs). -/
def splitFirst (ch : Char) (s : Str) : Option (Str × Str) :=
  if s.contains ch then
    some (s.takeWhile (fun c => c ≠ ch), (s.dropWhile (fun c => c ≠ ch)).drop 1)
  else
    none

/-- Split a string on every occurrence of `ch`. -/
def splitOnChar (ch : Char) : Str → List Str
  | [] => [[]]
  | c :: rest =>
    if c = ch then
      [] :: splitOnChar ch rest
    else
      match splitOnChar ch rest with
      | [] => [[c]]
      | g :: gs => (c :: g) :: gs

/-- Render an integer the way Python `str(i)` does. -/
def intText (i : Int) : Str := (toString i).toList

/-! ## Paths and the workspace sandbox

An absolute, fully resolved path is a list of components (`PathC`).  A raw
path supplied by the model is structural: an absoluteness flag plus raw
components (possibly `..` or `.`), mirroring `pathlib.Path` segments. -/

/-- An absolute resolved path, as its list of components. -/
abbrev PathC := List Str

/-- A raw path argument: absolute or workspace-relative, with raw segments. -/
structure RawPath where
  isAbs : Bool
  comps : List Str
deriving DecidableEq, Repr

/-- Lexical normalization performed by `Path.resolve()`: drop `.` and empty
segments, let `..` remove the previous component (a `..` at the root is
dropped). -/
def normalizeComps (comps : List Str) : List Str :=
  comps.foldl
    (fun acc c =>
      if c = ['.'] ∨ c = [] then acc
      else if c = ['.', '.'] then acc.dropLast
      else acc ++ [c])
    []

/-- Render an absolute path (`str(path)` for an absolute `Path`). -/
def renderAbs (p : PathC) : Str := p.foldl (fun acc c => acc ++ '/' :: c) []

/-- Render a workspace-relative path (`str(path.relative_to(workspace))`);
an empty relative path renders as `.`. -/
def renderRel (p : PathC) : Str :=
  match p with
  | [] => ['.']
  | c :: rest => rest.foldl (fun acc d => acc ++ '/' :: d) c

/-- Parse a path string the way `pathlib.Path` splits it into parts:
a leading `/` marks it absolute; empty segments are dropped. -/
def parsePath (s : Str) : RawPath :=
  match s with
  | '/' :: rest => ⟨true, (splitOnChar '/' rest).filter (fun c => c ≠ [])⟩
  | _ => ⟨false, (splitOnChar '/' s).filter (fun c => c ≠ [])⟩

/-- The `PolicyError` raise sites of `policy.validate_shell_command`. -/
inductive PolicyError where
  /-- "Shell command is empty." -/
  | emptyCommand : PolicyError
  /-- "Blocked shell command pattern: ..." for the pattern at this index of
  `_BLOCKED_COMMAND_PATTERNS`. -/
  | blocked (idx : Nat) : PolicyError
deriving DecidableEq, Repr

/-- The `ToolError` raise sites of `tools.py` (each constructor is one
`raise` site; the carried data is what the message interpolates). -/
inductive ToolError where
  /-- "Path escapes workspace: ..." (`_resolve_path`). -/
  | pathEscape (raw : RawPath) : ToolError
  /-- "Path does not exist: ..." (`list_files`, `search_text`). -/
  | notFound (raw : RawPath) : ToolError
  /-- "Not a file: ..." (`read_file`, `patch_file`). -/
  | notAFile (raw : RawPath) : ToolError
  /-- "Invalid line range." (`read_file`). -/
  | invalidRange : ToolError
  /-- "`find` must not be empty." (`patch_file`). -/
  | emptyFind : ToolError
  /-- "No matches found for `find`." (`patch_file`). -/
  | noMatch : ToolError
  /-- "Replacement count mismatch. expected=..., actual=..." (`patch_file`). -/
  | countMismatch (expected : Int) (actual : Nat) : ToolError
  /-- "Missing required argument `...` for tool `...`." (`_require_arg`). -/
  | missingArg (key tool : Str) : ToolError
  /-- "Unknown tool: ..." (`dispatch_tool`). -/
  | unknownTool (name : Str) : ToolError
  /-- stderr text or "Failed to list files." / "Search failed." when the
  external matcher exits with a code other than 0 or 1. -/
  | procFailed (stderr : Str) : ToolError
  /-- a `PolicyError` re-raised by `run_shell` as `ToolError(str(exc))`. -/
  | policy (e : PolicyError) : ToolError
deriving DecidableEq, Repr

/-- `_resolve_path`: join a relative path to the workspace root (or take an
absolute path as is), resolve it, and require the result to stay inside the
workspace; otherwise fail with the path-escape error. -/
def resolvePath (ws : PathC) (raw : RawPath) : Except ToolError PathC :=
  let cand :=
    if raw.isAbs then normalizeComps raw.comps else normalizeComps (ws ++ raw.comps)
  if ws.isPrefixOf cand then .ok cand else .error (.pathEscape raw)

/-- `_resolve_path_or_workspace`: like `_resolve_path`, but an escaping path
falls back to the workspace root instead of failing. -/
def resolvePathOrWorkspace (ws : PathC) (raw : RawPath) : PathC :=
  match resolvePath ws raw with
  | .ok p => p
  | .error _ => ws

/-- `_workspace_relative`: render a path string relative to the workspace
when it lies under it, else return it unchanged.  (No resolution happens
here, matching the source.) -/
def wsRelative (ws : PathC) (s : Str) : Str :=
  let pr := parsePath s
  let absComps := if pr.isAbs then pr.comps else ws ++ pr.comps
  if ws.isPrefixOf absComps then renderRel (absComps.drop ws.length)
  else (if pr.isAbs then renderAbs pr.comps else renderRel pr.comps)

/-! ## Filesystem model

The filesystem is an association list from absolute resolved paths to file
contents.  A path is a file iff it is bound; it is a directory iff it is a
proper prefix of some bound path; the workspace root always exists. -/

/-- Filesystem: file path ↦ content.  List order fixes enumeration order
(the order `rglob` and the external matcher walk files in). -/
abbrev FS := List (PathC × Str)

/-- Content of the file at `p`, if `p` is a regular file. -/
def fsRead (fs : FS) (p : PathC) : Option Str :=
  match fs.find? (fun e => e.1 = p) with
  | some e => some e.2
  | none => none

/-- Overwrite (or create) the file at `p`. -/
def fsWrite (fs : FS) (p : PathC) (content : Str) : FS :=
  match fs with
  | [] => [(p, content)]
  | e :: rest => if e.1 = p then (p, content) :: rest else e :: fsWrite rest p content

/-- `path.exists()`: the workspace root, any file, and any directory on the
way to a file exist. -/
def fsExists (ws : PathC) (fs : FS) (p : PathC) : Bool :=
  p = ws ∨ fs.any (fun e => p.isPrefixOf e.1)

/-- All files whose path lies strictly under the directory `p`
(`p.rglob("*")` filtered to files), in filesystem order. -/
def filesUnder (fs : FS) (p : PathC) : List (PathC × Str) :=
  fs.filter (fun e => p.isPrefixOf e.1 ∧ p ≠ e.1)

/-! ## Shell policy guard (`policy.py`)

Each pattern of `_BLOCKED_COMMAND_PATTERNS` is a regular expression of the
restricted shape `\b` + literal/`\s+` alternations (+ optional trailing
`\b`), compiled with `re.IGNORECASE`.  The embedding represents each pattern
as its item list and checks `pattern.search` by scanning start positions.
Case-insensitivity is handled by searching the lowercased text with
lowercase literals, which coincides for these ASCII patterns. -/

/-- One element of a blocked pattern: a literal, or `\s+`. -/
inductive RItem where
  | lit : Str → RItem
  | ws1 : RItem
deriving DecidableEq, Repr

/-- Match a sequence of items at the front of `s`, returning the rest of the
text after the match.  `\s+` is matched greedily; in every blocked pattern
the item after `\s+` starts with a non-space character, so greedy matching
coincides with regex backtracking semantics. -/
def matchItems : List RItem → Str → Option Str
  | [], s => some s
  | .lit cs :: rest, s =>
    if cs.isPrefixOf s then matchItems rest (s.drop cs.length) else none
  | .ws1 :: rest, s =>
    match s with
    | [] => none
    | c :: s2 =>
      if isPySpace c then matchItems rest (s2.dropWhile isPySpace) else none

/-- A blocked-command pattern: `\b`, the items, and an optional trailing
`\b`.  `firstChar`/`lastChar` are the first and last literal characters,
used to evaluate the word boundaries. -/
structure BlockedPattern where
  items : List RItem
  firstChar : Char
  lastChar : Char
  trailing : Bool
  /-- The `pattern.pattern` source text, interpolated into the error. -/
  source : Str
deriving DecidableEq, Repr

/-- Does the pattern match starting exactly at the current position, where
`prev` is the character just before that position (none at the start)? -/
def patMatchHere (p : BlockedPattern) (prev : Option Char) (s : Str) : Bool :=
  let leadB :=
    match prev with
    | none => isWordChar p.firstChar
    | some c => isWordChar c ≠ isWordChar p.firstChar
  leadB &&
    match matchItems p.items s with
    | none => false
    | some rest =>
      if p.trailing then
        match rest with
        | [] => isWordChar p.lastChar
        | c :: _ => decide (isWordChar p.lastChar ≠ isWordChar c)
      else true

/-- `pattern.search(s)`: does the pattern match at some position? -/
def patSearchFrom (p : BlockedPattern) : Option Char → Str → Bool
  | prev, s =>
    patMatchHere p prev s ||
      match s with
      | [] => false
      | c :: rest => patSearchFrom p (some c) rest

/-- `pattern.search` from the beginning of the text. -/
def patSearch (p : BlockedPattern) (s : Str) : Bool := patSearchFrom p none s

/-- `_BLOCKED_COMMAND_PATTERNS`, in source order. -/
def blockedCommandPatterns : List BlockedPattern :=
  [ -- \brm\s+-rf\s+/
    ⟨[.lit ("rm").toList, .ws1, .lit ("-rf").toList, .ws1, .lit ("/").toList],
      'r', '/', false, ("\\brm\\s+-rf\\s+/").toList⟩,
    -- \bsudo\b
    ⟨[.lit ("sudo").toList], 's', 'o', true, ("\\bsudo\\b").toList⟩,
    -- \bshutdown\b
    ⟨[.lit ("shutdown").toList], 's', 'n', true, ("\\bshutdown\\b").toList⟩,
    -- \breboot\b
    ⟨[.lit ("reboot").toList], 'r', 't', true, ("\\breboot\\b").toList⟩,
    -- \bmkfs\b
    ⟨[.lit ("mkfs").toList], 'm', 's', true, ("\\bmkfs\\b").toList⟩,
    -- \bdd\s+if=
    ⟨[.lit ("dd").toList, .ws1, .lit ("if=").toList], 'd', '=', false,
      ("\\bdd\\s+if=").toList⟩,
    -- \bgit\s+reset\s+--hard\b
    ⟨[.lit ("git").toList, .ws1, .lit ("reset").toList, .ws1, .lit ("--hard").toList],
      'g', 'd', true, ("\\bgit\\s+reset\\s+--hard\\b").toList⟩,
    -- \bgit\s+checkout\s+--\b
    ⟨[.lit ("git").toList, .ws1, .lit ("checkout").toList, .ws1, .lit ("--").toList],
      'g', '-', true, ("\\bgit\\s+checkout\\s+--\\b").toList⟩ ]

/-- The `for pattern in _BLOCKED_COMMAND_PATTERNS` loop: index of the first
pattern matching the text, counting from `i`. -/
def findBlockedFrom (i : Nat) (low : Str) : List BlockedPattern → Option Nat
  | [] => none
  | p :: rest => if patSearch p low then some i else findBlockedFrom (i + 1) low rest

/-- `validate_shell_command`: reject empty (after stripping) commands, then
reject the first blocked pattern that matches the stripped command. -/
def validateShellCommand (command : Str) : Option PolicyError :=
  let stripped := pyStrip command
  if stripped = [] then some .emptyCommand
  else
    match findBlockedFrom 0 (toLowerStr stripped) blockedCommandPatterns with
    | some i => some (.blocked i)
    | none => none

/-! ## Workspace sandbox tools (`tools.py`)

File contents are character lists; byte sizes are modeled as character
counts except where UTF-8 byte lengths are computed explicitly
(`bytes_written`), which is exact for ASCII contents. -/

/-- Result of `read_file` (the returned mapping). -/
structure ReadResult where
  path : Str
  start : Int
  /-- the `end` field of the result (named `stop` here). -/
  stop : Int
  content : Str
  totalLines : Nat
deriving DecidableEq, Repr

/-- Result of `write_file`. -/
structure WriteResult where
  path : Str
  bytesWritten : Nat
deriving DecidableEq, Repr

/-- Result of `patch_file`. -/
structure PatchResult where
  path : Str
  replacements : Nat
  bytesWritten : Nat
deriving DecidableEq, Repr

/-- Result of `list_files`. -/
structure ListResult where
  count : Nat
  files : List Str
deriving DecidableEq, Repr

/-- Result of `search_text` (`search_mode` is present only on the manual
fallback path, as in the source). -/
structure SearchResult where
  count : Nat
  /-- the `matches` field of the result. -/
  found : List Str
  searchMode : Option Str
deriving DecidableEq, Repr

/-- Result of `run_shell`. -/
structure ShellResult where
  command : Str
  returncode : Int
  stdout : Str
  stderr : Str
deriving DecidableEq, Repr

/-- Outcome of one external shell process (the `subprocess.run` oracle). -/
structure ExecOut where
  returncode : Int
  stdout : Str
  stderr : Str
deriving DecidableEq, Repr

/-- Outcome of one external matcher process (`rg`). -/
structure ProcOut where
  returncode : Int
  stdoutLines : List Str
  stderr : Str
deriving DecidableEq, Repr

/-- `read_file`: resolve, require a regular file, validate the line range
(`start < 1 or end < start` fails), then return the inclusive line range
`[start, end]` and the total line count. -/
def readFile (ws : PathC) (fs : FS) (raw : RawPath) (start stop : Int) :
    Except ToolError ReadResult :=
  match resolvePath ws raw with
  | .error e => .error e
  | .ok resolved =>
    match fsRead fs resolved with
    | none => .error (.notAFile raw)
    | some text =>
      if start < 1 ∨ stop < start then .error .invalidRange
      else
        let lines := pySplitlines text
        let snippet := pySlice (start - 1).toNat stop.toNat lines
        .ok { path := renderRel (resolved.drop ws.length), start := start, stop := stop,
              content := joinLines snippet, totalLines := lines.length }

/-- `write_file`: resolve (parent directories are implicit in the model),
overwrite the file, and report the byte count written.  The filesystem is
returned alongside; error branches leave it unchanged, as the source writes
only at the end. -/
def writeFile (ws : PathC) (fs : FS) (raw : RawPath) (content : Str) :
    Except ToolError WriteResult × FS :=
  match resolvePath ws raw with
  | .error e => (.error e, fs)
  | .ok resolved =>
    (.ok { path := renderRel (resolved.drop ws.length), bytesWritten := utf8Len content },
     fsWrite fs resolved content)

/-- Does the actual replacement count violate `expected_replacements`? -/
def expectedMismatch (expected : Option Int) (k : Nat) : Bool :=
  match expected with
  | some e => (k : Int) ≠ e
  | none => false

/-- `patch_file`: reject an empty `find`; resolve; require a regular file;
count occurrences; fail on zero matches; fail on an `expected_replacements`
mismatch (before any write); otherwise replace every occurrence and write. -/
def patchFile (ws : PathC) (fs : FS) (raw : RawPath) (find repl : Str)
    (expected : Option Int) : Except ToolError PatchResult × FS :=
  if find = [] then (.error .emptyFind, fs)
  else
    match resolvePath ws raw with
    | .error e => (.error e, fs)
    | .ok resolved =>
      match fsRead fs resolved with
      | none => (.error (.notAFile raw), fs)
      | some original =>
        let replacements := countOccs find original
        if replacements = 0 then (.error .noMatch, fs)
        else if expectedMismatch expected replacements then
          (.error (.countMismatch (expected.getD 0) replacements), fs)
        else
          let updated := replaceAll find repl original
          (.ok { path := renderRel (resolved.drop ws.length),
                 replacements := replacements, bytesWritten := utf8Len updated },
           fsWrite fs resolved updated)

/-- `_should_skip_file_for_search` on a file content: skip contents over
1 MiB or with a NUL byte among the first 1024. -/
def shouldSkipContent (content : Str) : Bool :=
  if content.length > 1048576 then true
  else (content.take 1024).contains '\x00'

/-- `_should_skip_file_for_search` on a path: stat/open failures (missing
file or directory path) are also skipped. -/
def shouldSkipPath (fs : FS) (p : PathC) : Bool :=
  match fsRead fs p with
  | some c => shouldSkipContent c
  | none => true

/-- Modelled from the spec: the external fast matcher in file-listing mode
(`rg --files <target>`, run from the workspace; `rg` itself is not part of
the repository).  It prints one absolute path per line for every file under
the target and exits 0 (or 1 when there are none). -/
def rgFilesModel (fs : FS) (target : PathC) : ProcOut :=
  let files := fs.filter (fun e => target.isPrefixOf e.1)
  { returncode := if files = [] then 1 else 0,
    stdoutLines := files.map (fun e => renderAbs e.1),
    stderr := [] }

/-- `list_files`: resolve with workspace fallback, require existence, then
either consume the external matcher's file list (mapped workspace-relative)
or walk the tree manually; the result is capped at 300 entries. -/
def listFiles (hasRg : Bool) (ws : PathC) (fs : FS) (raw : RawPath) :
    Except ToolError ListResult :=
  let target := resolvePathOrWorkspace ws raw
  if ¬ fsExists ws fs target then .error (.notFound raw)
  else if hasRg then
    let proc := rgFilesModel fs target
    if proc.returncode ≠ 0 ∧ proc.returncode ≠ 1 then
      .error (.procFailed
        (if pyStrip proc.stderr = [] then ("Failed to list files.").toList
         else pyStrip proc.stderr))
    else
      let files :=
        (proc.stdoutLines.filter (fun l => pyStrip l ≠ [])).map (wsRelative ws)
      .ok { count := files.length, files := files.take 300 }
  else
    let entries :=
      if (fsRead fs target).isSome then [target] else (filesUnder fs target).map (·.1)
    let files := entries.map (fun p => renderRel (p.drop ws.length))
    .ok { count := files.length, files := files.take 300 }

/-- Line-level pattern matching for the search tool.  The source tries
`re.compile(pattern)` and uses `regex.search(line)`, falling back to plain
substring containment when the pattern does not compile.  The model covers
patterns free of regex metacharacters, for which compilation succeeds and
`regex.search` coincides with substring containment. -/
def lineMatches (pattern line : Str) : Bool := containsSub pattern line

/-- Matching lines of one file content, with 1-based line numbers. -/
def matchingLines (pattern content : Str) : List (Nat × Str) :=
  ((pySplitlines content).enum.filter (fun p => lineMatches pattern p.2)).map
    (fun p => (p.1 + 1, p.2))

/-- The lines the external matcher prints for one file: nothing when the
file is outside the target or contains a NUL byte (ripgrep's binary
heuristic), else up to 200 `<absolute path>:<line number>:<line text>`
lines for the matching lines. -/
def rgEntryLines (target : PathC) (pattern : Str) (e : PathC × Str) : List Str :=
  if target.isPrefixOf e.1 ∧ ¬ e.2.contains '\x00' then
    ((matchingLines pattern e.2).take 200).map
      (fun q => renderAbs e.1 ++ ':' :: intText (q.1 : Int) ++ ':' :: q.2)
  else []

/-- Modelled from the spec: the external fast matcher in search mode
(`rg -n --max-count 200 <pattern> <target>`, run from the workspace; `rg`
itself is not part of the repository).  It prints the `rgEntryLines` of
every file in walk order and exits 0 when anything matched, else 1. -/
def rgSearchModel (fs : FS) (target : PathC) (pattern : Str) : ProcOut :=
  let lines := (fs.map (rgEntryLines target pattern)).flatten
  { returncode := if lines = [] then 1 else 0, stdoutLines := lines, stderr := [] }

/-- The matches the manual fallback produces for one scanned file: nothing
for unreadable or skipped (oversized/binary) files, else one
`<relative path>:<line number>:<line text>` entry per matching line. -/
def manualFileMatches (ws : PathC) (fs : FS) (pattern : Str) (p : PathC) : List Str :=
  match fsRead fs p with
  | none => []
  | some content =>
    if shouldSkipContent content then []
    else
      (matchingLines pattern content).map (fun q =>
        renderRel (p.drop ws.length) ++ ':' :: intText (q.1 : Int) ++ ':' :: q.2)

/-- `search_text`: resolve with workspace fallback, require existence, then
either post-filter the external matcher's output (dropping lines whose file
exists and should be skipped, re-rendering paths workspace-relative) or scan
manually, skipping oversized/binary files, capped at 200 matches. -/
def searchText (hasRg : Bool) (ws : PathC) (fs : FS) (pattern : Str) (raw : RawPath) :
    Except ToolError SearchResult :=
  let target := resolvePathOrWorkspace ws raw
  if ¬ fsExists ws fs target then .error (.notFound raw)
  else if hasRg then
    let proc := rgSearchModel fs target pattern
    if proc.returncode ≠ 0 ∧ proc.returncode ≠ 1 then
      .error (.procFailed
        (if pyStrip proc.stderr = [] then ("Search failed.").toList
         else pyStrip proc.stderr))
    else
      let cleaned := (proc.stdoutLines.take 200).filterMap (fun line =>
        match splitFirst ':' line with
        | none => some line
        | some (filePart, rest) =>
          let pr := parsePath filePart
          let cand := if pr.isAbs then pr.comps else ws ++ pr.comps
          if fsExists ws fs cand ∧ shouldSkipPath fs cand then none
          else some (wsRelative ws filePart ++ ':' :: rest))
      .ok { count := cleaned.length, found := cleaned, searchMode := none }
  else
    let entries :=
      if (fsRead fs target).isSome then [target] else (filesUnder fs target).map (·.1)
    let allMatches := (entries.map (manualFileMatches ws fs pattern)).flatten
    let ms := allMatches.take 200
    .ok { count := ms.length, found := ms, searchMode := some ("regex").toList }

/-- `run_shell`: validate against the policy guard (a `PolicyError` is
re-raised as a `ToolError`), then hand the command to the external shell —
the oracle `exec` — keeping the last 8000 characters of each output stream.
Timeout expiry is outside the model. -/
def runShell (exec : Str → Int → ExecOut) (command : Str) (timeoutSeconds : Int) :
    Except ToolError ShellResult :=
  match validateShellCommand command with
  | some e => .error (.policy e)
  | none =>
    let p := exec command timeoutSeconds
    .ok { command := command, returncode := p.returncode,
          stdout := pyTakeLast 8000 p.stdout, stderr := pyTakeLast 8000 p.stderr }

/-! ## Decoded model output (`orchestrator.py`)

The model's decoded JSON is a value tree; an action object is an
association list with dict semantics (`jGet` reads the binding, `jSet`
updates it in place or appends, `jSetDefault` appends only when absent). -/

/-- A decoded JSON value. -/
inductive JValue where
  | jstr : Str → JValue
  | jint : Int → JValue
  | jbool : Bool → JValue
  | jnull : JValue
  | jarr : List JValue → JValue
  | jobj : List (Str × JValue) → JValue
deriving Repr

/-- A decoded JSON object (Python dict). -/
abbrev JObj := List (Str × JValue)

/-- `d.get(k)`. -/
def jGet (d : JObj) (k : Str) : Option JValue :=
  match d.find? (fun e => e.1 = k) with
  | some e => some e.2
  | none => none

/-- `d[k] = v`: update the existing binding in place, else append. -/
def jSet (d : JObj) (k : Str) (v : JValue) : JObj :=
  match d with
  | [] => [(k, v)]
  | e :: rest => if e.1 = k then (k, v) :: rest else e :: jSet rest k v

/-- `d.setdefault(k, v)`. -/
def jSetDefault (d : JObj) (k : Str) (v : JValue) : JObj :=
  if (jGet d k).isSome then d else d ++ [(k, v)]

/-- `_KNOWN_TOOL_NAMES` (the registry of `TOOL_SPECS`, in source order). -/
def knownToolNames : List Str :=
  [("list_files").toList, ("read_file").toList, ("write_file").toList,
   ("search_text").toList, ("patch_file").toList, ("run_shell").toList]

/-- `_TOOL_REQUIRED_ARGS`: the required-argument names of each tool. -/
def requiredArgsOf (name : Str) : List Str :=
  if name = ("read_file").toList then [("path").toList]
  else if name = ("write_file").toList then [("path").toList, ("content").toList]
  else if name = ("search_text").toList then [("pattern").toList]
  else if name = ("patch_file").toList then
    [("path").toList, ("find").toList, ("replace").toList]
  else if name = ("run_shell").toList then [("command").toList]
  else []

/-- An uncaught Python `TypeError`.  The normalizer's first test,
`action_type in {"tool", "message"}`, hashes the value of `type`; a JSON
array or object (Python list/dict) is unhashable, so the test raises, and
no caller catches the exception. -/
inductive PyTypeError where
  | unhashable : PyTypeError
deriving DecidableEq, Repr

/-- `_normalize_action`, transcribed from the source: pass `tool`/`message`
types through; promote a type naming a known tool to a tool call; coerce
`type` to `tool` when a known `name` plus `args` mapping is present;
otherwise pass through.  A `type` holding an array or mapping is unhashable
and makes the very first set-membership test raise `TypeError` (the
`.error` case); every other value (string, number, boolean, null, absent)
is hashable and simply fails both membership tests. -/
def normalizeAction (d : JObj) : Except PyTypeError JObj :=
  let coerceByName : JObj → JObj := fun d0 =>
    match jGet d0 ("name").toList, jGet d0 ("args").toList with
    | some (.jstr n), some (.jobj _) =>
      if knownToolNames.contains n then jSet d0 ("type").toList (.jstr ("tool").toList)
      else d0
    | _, _ => d0
  match jGet d ("type").toList with
  | some (.jarr _) => .error .unhashable
  | some (.jobj _) => .error .unhashable
  | some (.jstr t) =>
    if t = ("tool").toList ∨ t = ("message").toList then .ok d
    else if knownToolNames.contains t then
      .ok (jSetDefault
        (jSet (jSet d ("type").toList (.jstr ("tool").toList)) ("name").toList (.jstr t))
        ("args").toList (.jobj []))
    else .ok (coerceByName d)
  | some _ => .ok (coerceByName d)
  | none => .ok (coerceByName d)

/-- The normalizer as the amended claim words it: "an object whose `type`
value is an array or mapping raises an uncaught `TypeError`; otherwise, if
type is already `tool` or `message` the object passes through unchanged;
else if type equals a known tool name the object becomes a tool call with
`type="tool"`, `name` set to the original type, and `args` defaulted to the
empty mapping if absent; else if the object has a `name` matching a known
tool and a mapping-valued `args`, `type` is coerced to `tool`; otherwise
the object passes through unchanged." -/
def normalizeActionSpec (d : JObj) : Except PyTypeError JObj :=
  let typeIsUnhashable : Bool :=
    match jGet d ("type").toList with
    | some (.jarr _) => true
    | some (.jobj _) => true
    | _ => false
  let typeIsCanonical : Bool :=
    match jGet d ("type").toList with
    | some (.jstr t) => t = ("tool").toList ∨ t = ("message").toList
    | _ => false
  let typeIsKnownTool : Bool :=
    match jGet d ("type").toList with
    | some (.jstr t) => knownToolNames.contains t
    | _ => false
  let nameIsKnownWithArgs : Bool :=
    match jGet d ("name").toList, jGet d ("args").toList with
    | some (.jstr n), some (.jobj _) => knownToolNames.contains n
    | _, _ => false
  if typeIsUnhashable then .error .unhashable
  else if typeIsCanonical then .ok d
  else if typeIsKnownTool then
    match jGet d ("type").toList with
    | some (.jstr t) =>
      .ok (jSetDefault
        (jSet (jSet d ("type").toList (.jstr ("tool").toList)) ("name").toList (.jstr t))
        ("args").toList (.jobj []))
    | _ => .ok d
  else if nameIsKnownWithArgs then .ok (jSet d ("type").toList (.jstr ("tool").toList))
  else .ok d

/-- `_is_progress_only_message`: the lowercased, stripped content mentions a
forward-looking phrase and none of the completion phrases. -/
def progressMarkers : List Str :=
  [("i will now").toList, ("i'll now").toList, ("i will").toList,
   ("i have the full").toList, ("i have gathered").toList, ("i have located").toList,
   ("i can now").toList, ("i will proceed").toList, ("proceed with").toList]

/-- The completion phrases of `_is_progress_only_message`. -/
def completionMarkers : List Str :=
  [("done").toList, ("completed").toList, ("updated").toList, ("changed").toList,
   ("verification").toList, ("compiled").toList, ("summary").toList]

/-- `_is_progress_only_message`. -/
def isProgressOnlyMessage (content : Str) : Bool :=
  let lower := pyStrip (toLowerStr content)
  (progressMarkers.any (fun m => containsSub m lower)) &&
    !(completionMarkers.any (fun m => containsSub m lower))

/-! ## Best-effort argument repair (`_repair_tool_args`) -/

/-- The character class of the file-path guessing pattern
`([A-Za-z0-9_\-./]+\.py)\b`. -/
def fileTokenChar (c : Char) : Bool :=
  c.isAlphanum ∨ c = '_' ∨ c = '-' ∨ c = '.' ∨ c = '/'

/-- Length of the match of `([A-Za-z0-9_\-./]+\.py)\b` anchored at the
start of `s`, if any: the greedy class run backtracks to the last `.py`
followed by a word boundary. -/
def pyMatchLen (s : Str) : Option Nat :=
  let run := s.takeWhile fileTokenChar
  let j := run.length
  let ks := (List.range j).filter (fun k =>
    decide (1 ≤ k) && decide ((run.drop k).take 3 = ['.', 'p', 'y']) &&
      (match (run.drop (k + 3)).head? with
       | some c => ! isWordChar c
       | none => true))
  match ks.max? with
  | some k => some (k + 3)
  | none => none

/-- `_extract_first_file_path`: the leftmost match of the path-guessing
pattern. -/
def extractFirstFilePath : Str → Option Str
  | [] => none
  | c :: rest =>
    match pyMatchLen (c :: rest) with
    | some n => some ((c :: rest).take n)
    | none => extractFirstFilePath rest

/-- The backtick character (code point 96). -/
def btChar : Char := Char.ofNat 96

mutual

/-- Scan for the next backtick-delimited token
(`re.findall` of a backtick, one or more non-backticks, a backtick). -/
def backtickScan : Str → List Str
  | [] => []
  | c :: rest => if c = btChar then backtickCapture rest [] else backtickScan rest

/-- Capture the non-backtick run after an opening backtick (`acc` holds the
reversed run so far); an immediately closing pair yields nothing and
scanning resumes at the closing backtick. -/
def backtickCapture : Str → Str → List Str
  | [], _ => []
  | c :: rest, acc =>
    if c = btChar then
      if acc = [] then backtickCapture rest []
      else acc.reverse :: backtickScan rest
    else backtickCapture rest (c :: acc)

end

/-- The identifier fallback of `_derive_pattern_from_request`: the leftmost
word of the pattern `\b([A-Za-z_][A-Za-z0-9_]{2,})\b` (a letter or
underscore starting a word run of length at least 3, at a word boundary;
the greedy run always ends at a boundary). -/
def identTokenFrom : Option Char → Str → Option Str
  | _, [] => none
  | prev, c :: rest =>
    let boundaryOk : Bool :=
      match prev with
      | none => true
      | some p => ¬ isWordChar p
    if boundaryOk ∧ (c.isAlpha ∨ c = '_') ∧
        ((c :: rest).takeWhile isWordChar).length ≥ 3 then
      some ((c :: rest).takeWhile isWordChar)
    else identTokenFrom (some c) rest

/-- `_derive_pattern_from_request`: the first nonempty stripped
backtick-quoted token, else the first long identifier-like word. -/
def derivePatternFromRequest (text : Str) : Option Str :=
  match ((backtickScan text).filterMap (fun tok =>
      let cleaned := pyStrip tok
      if cleaned = [] then none else some cleaned)).head? with
  | some cleaned => some cleaned
  | none => identTokenFrom none text

/-- `_repair_tool_args`: guess a missing required `path` from the user
input, and a missing `pattern` for `search_text`. -/
def repairToolArgs (toolName : Str) (args : JObj) (userInput : Str) : JObj :=
  let required := requiredArgsOf toolName
  let r1 :=
    if required.contains ("path").toList ∧ (jGet args ("path").toList).isNone then
      match extractFirstFilePath userInput with
      | some p => jSet args ("path").toList (.jstr p)
      | none => args
    else args
  if toolName = ("search_text").toList ∧ (jGet r1 ("pattern").toList).isNone then
    match derivePatternFromRequest userInput with
    | some p => jSet r1 ("pattern").toList (.jstr p)
    | none => r1
  else r1

/-! ## Step budget (`run_once`, lines 289–291) -/

/-- `_VERIFICATION_RESERVED_STEPS`. -/
def verificationReservedSteps : Int := 4

/-- `total_steps = max(1, cfg.max_steps)`. -/
def totalStepsOf (maxSteps : Int) : Int := max 1 maxSteps

/-- `reserved_steps = min(_VERIFICATION_RESERVED_STEPS, max(total_steps - 1, 0))`. -/
def reservedStepsOf (maxSteps : Int) : Int :=
  min verificationReservedSteps (max (totalStepsOf maxSteps - 1) 0)

/-- `execution_step_limit = max(1, total_steps - reserved_steps)`. -/
def executionStepLimitOf (maxSteps : Int) : Int :=
  max 1 (totalStepsOf maxSteps - reservedStepsOf maxSteps)

/-! ## Tool dispatch (`dispatch_tool`)

Python argument coercions: `str(x)` always succeeds (container renderings
are abstracted as placeholder tokens — no behavior modeled here depends on
them); `int(x)` succeeds on integers, booleans and integer-shaped strings
and otherwise raises a non-`ToolError` exception, which the action loop
reports as an unexpected tool error. -/

/-- Python `str(x)` on a decoded JSON value. -/
def pyToStr : JValue → Str
  | .jstr s => s
  | .jint n => intText n
  | .jbool b => if b then ("True").toList else ("False").toList
  | .jnull => ("None").toList
  | .jarr _ => ("<list>").toList
  | .jobj _ => ("<dict>").toList

/-- Python `int(s)` on a string: optional sign and at least one digit,
surrounded by whitespace. -/
def parseIntStr (s : Str) : Option Int :=
  let t := pyStrip s
  let core : Option (Bool × Str) :=
    match t with
    | '-' :: rest => some (true, rest)
    | '+' :: rest => some (false, rest)
    | _ => some (false, t)
  match core with
  | some (neg, digits) =>
    if digits ≠ [] ∧ digits.all Char.isDigit then
      let v : Int := digits.foldl (fun acc c => acc * 10 + (c.toNat - ('0').toNat : Int)) 0
      some (if neg then -v else v)
    else none
  | none => none

/-- Python `int(x)`: `none` marks a `TypeError`/`ValueError`. -/
def pyToInt : JValue → Option Int
  | .jint n => some n
  | .jbool b => some (if b then 1 else 0)
  | .jstr s => parseIntStr s
  | _ => none

/-- A failure escaping `dispatch_tool`: a `ToolError`, or any other
exception (reported generically by the loop). -/
inductive DispatchError where
  | terr : ToolError → DispatchError
  | unexpected : DispatchError
deriving DecidableEq, Repr

/-- The result mapping of `read_file`, as the dict the loop sees. -/
def readResultJ (r : ReadResult) : JObj :=
  [(("path").toList, .jstr r.path), (("start").toList, .jint r.start),
   (("end").toList, .jint r.stop), (("content").toList, .jstr r.content),
   (("total_lines").toList, .jint r.totalLines)]

/-- The result mapping of `write_file`. -/
def writeResultJ (r : WriteResult) : JObj :=
  [(("path").toList, .jstr r.path), (("bytes_written").toList, .jint r.bytesWritten)]

/-- The result mapping of `patch_file`. -/
def patchResultJ (r : PatchResult) : JObj :=
  [(("path").toList, .jstr r.path), (("replacements").toList, .jint r.replacements),
   (("bytes_written").toList, .jint r.bytesWritten)]

/-- The result mapping of `list_files`. -/
def listResultJ (r : ListResult) : JObj :=
  [(("count").toList, .jint r.count), (("files").toList, .jarr (r.files.map .jstr))]

/-- The result mapping of `search_text`. -/
def searchResultJ (r : SearchResult) : JObj :=
  [(("count").toList, .jint r.count), (("matches").toList, .jarr (r.found.map .jstr))]
    ++ (match r.searchMode with
        | some m => [(("search_mode").toList, .jstr m)]
        | none => [])

/-- The result mapping of `run_shell`. -/
def shellResultJ (r : ShellResult) : JObj :=
  [(("command").toList, .jstr r.command), (("returncode").toList, .jint r.returncode),
   (("stdout").toList, .jstr r.stdout), (("stderr").toList, .jstr r.stderr)]

/-- The external effect handles a tool dispatch needs: presence of the fast
matcher and the shell. -/
structure ToolEnv where
  hasRg : Bool
  exec : Str → Int → ExecOut

/-- Map an `Except` from a pure tool into the dispatch result. -/
def liftTool {α : Type} (f : α → JObj) : Except ToolError α → Except DispatchError JObj
  | .ok r => .ok (f r)
  | .error e => .error (.terr e)

/-- `dispatch_tool`: route by tool name, extracting and coercing arguments
as the source does (`_require_arg` for required keys, `.get` defaults for
optional ones). -/
def dispatchTool (env : ToolEnv) (ws : PathC) (timeoutSeconds : Int) (fs : FS)
    (name : Str) (args : JObj) : Except DispatchError JObj × FS :=
  if name = ("list_files").toList then
    let pathS := pyToStr ((jGet args ("path").toList).getD (.jstr ['.']))
    (liftTool listResultJ (listFiles env.hasRg ws fs (parsePath pathS)), fs)
  else if name = ("read_file").toList then
    match jGet args ("path").toList with
    | none => (.error (.terr (.missingArg ("path").toList name)), fs)
    | some pv =>
      match pyToInt ((jGet args ("start").toList).getD (.jint 1)),
          pyToInt ((jGet args ("end").toList).getD (.jint 200)) with
      | some start, some stop =>
        (liftTool readResultJ (readFile ws fs (parsePath (pyToStr pv)) start stop), fs)
      | _, _ => (.error .unexpected, fs)
  else if name = ("write_file").toList then
    match jGet args ("path").toList, jGet args ("content").toList with
    | none, _ => (.error (.terr (.missingArg ("path").toList name)), fs)
    | some _, none => (.error (.terr (.missingArg ("content").toList name)), fs)
    | some pv, some cv =>
      let r := writeFile ws fs (parsePath (pyToStr pv)) (pyToStr cv)
      (liftTool writeResultJ r.1, r.2)
  else if name = ("search_text").toList then
    match jGet args ("pattern").toList with
    | none => (.error (.terr (.missingArg ("pattern").toList name)), fs)
    | some pv =>
      let pathS := pyToStr ((jGet args ("path").toList).getD (.jstr ['.']))
      (liftTool searchResultJ (searchText env.hasRg ws fs (pyToStr pv) (parsePath pathS)), fs)
  else if name = ("patch_file").toList then
    match jGet args ("path").toList, jGet args ("find").toList,
        jGet args ("replace").toList with
    | none, _, _ => (.error (.terr (.missingArg ("path").toList name)), fs)
    | some _, none, _ => (.error (.terr (.missingArg ("find").toList name)), fs)
    | some _, some _, none => (.error (.terr (.missingArg ("replace").toList name)), fs)
    | some pv, some fv, some rv =>
      let expectedArg : Option (Option Int) :=
        match jGet args ("expected_replacements").toList with
        | none => some none
        | some .jnull => some none
        | some v =>
          match pyToInt v with
          | some n => some (some n)
          | none => none
      match expectedArg with
      | none => (.error .unexpected, fs)
      | some expected =>
        let r := patchFile ws fs (parsePath (pyToStr pv)) (pyToStr fv) (pyToStr rv) expected
        (liftTool patchResultJ r.1, r.2)
  else if name = ("run_shell").toList then
    match jGet args ("command").toList with
    | none => (.error (.terr (.missingArg ("command").toList name)), fs)
    | some cv =>
      (liftTool shellResultJ (runShell env.exec (pyToStr cv) timeoutSeconds), fs)
  else
    (.error (.terr (.unknownTool name)), fs)

/-! ## Error message texts (the `str(exc)` the loop folds into history) -/

/-- The textual form of a raw path argument (canonical rendering of the
structural path). -/
def rawPathText (r : RawPath) : Str :=
  if r.isAbs then renderAbs r.comps else renderRel r.comps

/-- `str(PolicyError)`. -/
def policyErrText : PolicyError → Str
  | .emptyCommand => ("Shell command is empty.").toList
  | .blocked i =>
    ("Blocked shell command pattern: ").toList ++
      (match blockedCommandPatterns[i]? with
       | some p => p.source
       | none => [])

/-- `str(ToolError)`, per raise site. -/
def toolErrText : ToolError → Str
  | .pathEscape raw => ("Path escapes workspace: ").toList ++ rawPathText raw
  | .notFound raw => ("Path does not exist: ").toList ++ rawPathText raw
  | .notAFile raw => ("Not a file: ").toList ++ rawPathText raw
  | .invalidRange => ("Invalid line range.").toList
  | .emptyFind => ("`find` must not be empty.").toList
  | .noMatch => ("No matches found for `find`.").toList
  | .countMismatch e k =>
    ("Replacement count mismatch. expected=").toList ++ intText e ++
      (", actual=").toList ++ intText (k : Int)
  | .missingArg key tool =>
    ("Missing required argument `").toList ++ key ++ ("` for tool `").toList ++
      tool ++ ("`.").toList
  | .unknownTool n => ("Unknown tool: ").toList ++ n
  | .procFailed msg => msg
  | .policy e => policyErrText e

/-- The error text the loop records for a dispatch failure (exception
details of non-`ToolError` exceptions are abstracted). -/
def dispatchErrText : DispatchError → Str
  | .terr e => toolErrText e
  | .unexpected => ("Unexpected tool error.").toList

/-! ## The action loop (`run_once`)

History entries are kept structured: an entry is a role together with
either plain text, the system preamble (the system prompt plus the
serialized tool registry), an echoed action object, a tool-result payload
(the source folds its clipped JSON serialization into a `Tool result:`
line), or the missing-argument correction.  The session store, the model
client and the verifier bot are external: the store receives exactly the
user input and the terminal assistant message (not modeled further); the
model client appears as the per-step oracle `modelO`, whose value is what
`_model_step` returns (a decoded action object, or the `RuntimeError`
message after parser exhaustion); the verifier bot appears as the oracle
`verifierO`. -/

/-- One structured history entry content. -/
inductive HContent where
  | systemPreamble : HContent
  | text : Str → HContent
  | action : JObj → HContent
  | toolResult : JObj → HContent
  | correction : Str → List Str → HContent

/-- A history entry: role and content. -/
abbrev HEntry := Str × HContent

/-- A persisted message seeding the per-turn history. -/
structure StoredMsg where
  role : Str
  content : Str

/-- The oracles of one turn. -/
structure LoopEnv where
  tools : ToolEnv
  modelO : Nat → Except Str JObj
  verifierO : Str

/-- The mutable per-turn state of the action loop. -/
structure LoopState where
  stepIdx : Nat
  fs : FS
  history : List HEntry
  editedFiles : List Str
  latestVerify : Option JObj
  errorCounts : List (Str × Nat)

/-- Occurrence count of a failure signature. -/
def getCount (counts : List (Str × Nat)) (sig : Str) : Nat :=
  match counts.find? (fun e => e.1 = sig) with
  | some e => e.2
  | none => 0

/-- `repeated_error_counts[sig] = repeated_error_counts.get(sig, 0) + 1`. -/
def bumpCount (counts : List (Str × Nat)) (sig : Str) : List (Str × Nat) :=
  match counts with
  | [] => [(sig, 1)]
  | e :: rest => if e.1 = sig then (sig, e.2 + 1) :: rest else e :: bumpCount rest sig

/-- The failure signature `f"{action.name}:{error_text}"`. -/
def sigOf (name errorText : Str) : Str := name ++ ':' :: errorText

/-- The corrective instruction injected after a progress-only message. -/
def correctiveText : Str :=
  ("Continue now and execute concrete tool actions. Do not ask for confirmation. Only return final message after edits + verification.").toList

/-- The circuit-breaker abort message. -/
def abortMessage (name errorText : Str) : Str :=
  ("Aborted repeated failing tool call: ").toList ++ name ++
    (". Last error: ").toList ++ errorText ++
    (". Try /reset and rephrase with explicit file path.").toList

/-- The terminal message for an unknown top-level action type (the echoed
object is abstracted). -/
def unknownActionMessage : Str := ("Unknown action type from model.").toList

/-- The terminal message for a schema-invalid message action (the
validation detail is abstracted). -/
def invalidMessageText : Str := ("Invalid message action.").toList

/-- `MessageAction.model_validate`: both `type` and `content` must be
strings (extra fields are ignored). -/
def validateMessageAction (d : JObj) : Option (Str × Str) :=
  match jGet d ("type").toList, jGet d ("content").toList with
  | some (.jstr t), some (.jstr c) => some (t, c)
  | _, _ => none

/-- `ToolAction.model_validate`: `type` and `name` must be strings and
`args` a mapping (extra fields are ignored). -/
def validateToolAction (d : JObj) : Option (Str × Str × JObj) :=
  match jGet d ("type").toList, jGet d ("name").toList, jGet d ("args").toList with
  | some (.jstr t), some (.jstr n), some (.jobj a) => some (t, n, a)
  | _, _, _ => none

/-- `_compact_tool_result_payload`: clip long string fields of the result
and cap long file/match lists at 40 entries, recording the remainder. -/
def compactToolResultPayload (payload : JObj) : JObj :=
  match jGet payload ("result").toList with
  | some (.jobj result) =>
    let clipField : JObj → Str → JObj := fun r k =>
      match jGet r k with
      | some (.jstr s) => jSet r k (.jstr (clipStr s 1500))
      | _ => r
    let capField : JObj → Str → JObj := fun r k =>
      match jGet r k with
      | some (.jarr v) =>
        if v.length > 40 then
          jSet (jSet r k (.jarr (v.take 40))) (k ++ ("_truncated").toList)
            (.jint (v.length - 40))
        else r
      | _ => r
    let r1 := [("stdout").toList, ("stderr").toList, ("content").toList].foldl clipField result
    let r2 := [("files").toList, ("matches").toList].foldl capField r1
    jSet payload ("result").toList (.jobj r2)
  | _ => payload

/-- Read the `overall_pass` flag of a verification report
(`bool(report.get("overall_pass", False))`). -/
def overallPassOf (report : JObj) : Bool :=
  match jGet report ("overall_pass").toList with
  | some (.jbool b) => b
  | _ => false

/-- One verification command: pass/fail from the exit code plus the shell
result (the two fixed commands never trip the policy guard, so the error
branch is unreachable and reported as a failed check). -/
def verifyCheckJ (r : Except ToolError ShellResult) : Bool × JObj :=
  match r with
  | .ok res => (res.returncode = 0, shellResultJ res)
  | .error _ => (false, [])

/-- `_auto_verify`: run the compile check and the behavioral test suite,
and aggregate `overall_pass`. -/
def autoVerify (env : ToolEnv) (timeoutSeconds : Int) : JObj :=
  let c := verifyCheckJ
    (runShell env.exec ("python3 -m compileall -q .").toList timeoutSeconds)
  let b := verifyCheckJ
    (runShell env.exec
      ("PYTHONPATH=. python3 -m unittest tests/test_search_text_behavior.py -v").toList
      timeoutSeconds)
  [(("compile").toList,
     .jobj [(("pass").toList, .jbool c.1), (("result").toList, .jobj c.2)]),
   (("behavior").toList,
     .jobj [(("pass").toList, .jbool b.1), (("result").toList, .jobj b.2)]),
   (("overall_pass").toList, .jbool (c.1 && b.1))]

/-- The suffix a final answer gains when edits occurred
(`"\n\nVerifier Bot:\n"` plus the verifier reply). -/
def verifierAppendix (env : LoopEnv) : Str :=
  ('\n' :: '\n' :: ("Verifier Bot:").toList) ++ '\n' :: env.verifierO

/-- Outcome of one loop iteration: continue with a new state, end the turn
with a terminal message, or crash with an uncaught exception (the `try`
around the model step catches only `RuntimeError`, so a `TypeError` from
the normalizer escapes `run_once`). -/
inductive StepOut where
  | cont : LoopState → StepOut
  | finish : Str → StepOut
  | crash : PyTypeError → StepOut

/-- One iteration of the action loop of `run_once` (the body of the
`for step in range(execution_step_limit)` loop). -/
def loopStep (env : LoopEnv) (ws : PathC) (timeoutSeconds : Int) (userInput : Str)
    (s : LoopState) : StepOut :=
  match env.modelO s.stepIdx with
  | .error msg => .finish msg
  | .ok raw =>
    match normalizeAction raw with
    | .error exc => .crash exc
    | .ok actionData =>
    match jGet actionData ("type").toList with
    | some (.jstr t) =>
      if t = ("message").toList then
        match validateMessageAction actionData with
        | none => .finish invalidMessageText
        | some (_, content) =>
          if isProgressOnlyMessage content then
            .cont { s with
              stepIdx := s.stepIdx + 1
              history := s.history ++
                [(("assistant").toList, HContent.text content),
                 (("user").toList, HContent.text correctiveText)] }
          else
            .finish (if s.editedFiles ≠ [] then content ++ verifierAppendix env
                     else content)
      else if t = ("tool").toList then
        match validateToolAction actionData with
        | none =>
          let failPayload : JObj :=
            [(("ok").toList, .jbool false),
             (("tool").toList, (jGet actionData ("name").toList).getD (.jstr ("unknown").toList)),
             (("error").toList, .jstr ("Invalid tool action.").toList)]
          .cont { s with
            stepIdx := s.stepIdx + 1
            history := s.history ++
              [(("assistant").toList, HContent.action actionData),
               (("user").toList, HContent.toolResult failPayload)] }
        | some (_, name, args) =>
          let repaired := repairToolArgs name args userInput
          let dres := dispatchTool env.tools ws timeoutSeconds s.fs name repaired
          match dres.1 with
          | .ok result =>
            let okPayload : JObj :=
              [(("ok").toList, .jbool true), (("tool").toList, .jstr name),
               (("result").toList, .jobj result)]
            let hist2 := s.history ++
              [(("assistant").toList, HContent.action actionData),
               (("user").toList, HContent.toolResult (compactToolResultPayload okPayload))]
            if name = ("write_file").toList ∨ name = ("patch_file").toList then
              let path := pyToStr ((jGet result ("path").toList).getD (.jstr []))
              let edited2 :=
                if path ≠ [] ∧ ¬ s.editedFiles.contains path then
                  s.editedFiles ++ [path]
                else s.editedFiles
              let report := autoVerify env.tools timeoutSeconds
              let verifyPayload : JObj :=
                [(("ok").toList, .jbool (overallPassOf report)),
                 (("tool").toList, .jstr ("auto_verify").toList),
                 (("result").toList, .jobj report)]
              .cont { stepIdx := s.stepIdx + 1
                      fs := dres.2
                      history := hist2 ++
                        [(("user").toList, HContent.toolResult (compactToolResultPayload verifyPayload))]
                      editedFiles := edited2
                      latestVerify := some report
                      errorCounts := s.errorCounts }
            else
              .cont { s with
                stepIdx := s.stepIdx + 1
                fs := dres.2
                history := hist2 }
          | .error derr =>
            let errorText := dispatchErrText derr
            let sig := sigOf name errorText
            let counts2 := bumpCount s.errorCounts sig
            let failPayload : JObj :=
              [(("ok").toList, .jbool false), (("tool").toList, .jstr name),
               (("error").toList, .jstr errorText)]
            let hist2 := s.history ++
              [(("assistant").toList, HContent.action actionData),
               (("user").toList, HContent.toolResult (compactToolResultPayload failPayload))]
            let required := requiredArgsOf name
            let hist3 :=
              if required ≠ [] ∧
                  containsSub ("Missing required argument").toList errorText then
                hist2 ++ [(("user").toList, HContent.correction name required)]
              else hist2
            if getCount counts2 sig ≥ 3 then
              .finish (abortMessage name errorText)
            else
              .cont { s with
                stepIdx := s.stepIdx + 1
                fs := dres.2
                history := hist3
                errorCounts := counts2 }
      else .finish unknownActionMessage
    | some _ => .finish unknownActionMessage
    | none => .finish unknownActionMessage

/-- Outcome of the execution phase: a terminal message, the exhausted state
(the budget ran out), or an uncaught exception. -/
inductive RunOutcome where
  | msg : Str → RunOutcome
  | exhausted : LoopState → RunOutcome
  | crashed : PyTypeError → RunOutcome

/-- Iterate `loopStep` until a terminal message, an uncaught exception, or
the exhaustion of the execution budget (returning the exhausted state). -/
def runLoop (env : LoopEnv) (ws : PathC) (timeoutSeconds : Int) (userInput : Str) :
    Nat → LoopState → RunOutcome
  | 0, s => .exhausted s
  | fuel + 1, s =>
    match loopStep env ws timeoutSeconds userInput s with
    | .finish m => .msg m
    | .crash exc => .crashed exc
    | .cont s2 => runLoop env ws timeoutSeconds userInput fuel s2

/-- The timeout path after the execution budget is exhausted: with edits,
ensure a verification ran and append the verifier reply; without edits,
report the split budget. -/
def finalizeTimeout (env : LoopEnv) (maxSteps execLimit reserved : Int)
    (s : LoopState) : Str :=
  if s.editedFiles ≠ [] then
    ("Stopped after ").toList ++ intText maxSteps ++
      (" steps without a final answer.").toList ++ verifierAppendix env
  else
    ("Stopped after execution budget of ").toList ++ intText execLimit ++
      (" steps (reserved ").toList ++ intText reserved ++
      (" for verification/finalization) without a final answer.").toList

/-- `run_once`: seed the history, run the action loop under the execution
budget, and fall back to the reserved finalization phase; an uncaught
`TypeError` from the normalizer propagates out (the `.error` case). -/
def runOnce (env : LoopEnv) (ws : PathC) (timeoutSeconds maxSteps : Int)
    (priorMessages : List StoredMsg) (fs : FS) (userInput : Str) :
    Except PyTypeError Str :=
  let execLimit := executionStepLimitOf maxSteps
  let history0 : List HEntry :=
    (("system").toList, HContent.systemPreamble) ::
      (priorMessages.map (fun m => ((m.role, HContent.text (clipStr m.content 1500)) : HEntry)))
      ++ [(("user").toList, HContent.text userInput)]
  let s0 : LoopState :=
    { stepIdx := 0
      fs := fs
      history := history0
      editedFiles := []
      latestVerify := none
      errorCounts := [] }
  match runLoop env ws timeoutSeconds userInput execLimit.toNat s0 with
  | .msg m => .ok m
  | .exhausted sEnd =>
    .ok (finalizeTimeout env maxSteps execLimit (reservedStepsOf maxSteps) sEnd)
  | .crashed exc => .error exc

/-! ## Fixtures: a small concrete workspace used by witnesses -/

/-- Workspace root `/ws`. -/
def wsW : PathC := [("ws").toList]

/-- The file `/ws/a.txt`. -/
def fileA : PathC := wsW ++ [("a.txt").toList]

/-- A one-file filesystem. -/
def fsW : FS := [(fileA, ("hello world\nthis is a test\npattern123\n").toList)]

/-- The relative path argument `a.txt`. -/
def rawA : RawPath := ⟨false, [("a.txt").toList]⟩

/-- The escaping relative path argument `../x`. -/
def rawEsc : RawPath := ⟨false, [("..").toList, ("x").toList]⟩

/-- The relative path argument `.` (the workspace itself). -/
def rawDot : RawPath := ⟨false, []⟩

/-- A shell oracle whose processes all succeed silently. -/
def execNop : Str → Int → ExecOut := fun _ _ => { returncode := 0, stdout := [], stderr := [] }

/-! ## C6 — step budget -/

/-- C6: for every `total_steps ≥ 1` with the fixed verification reserve of
4, the execution limit equals `max(1, total_steps - min(4, total_steps-1))`;
it equals `total_steps - 4` when `total_steps > 4` and `1` when
`total_steps ≤ 5`. -/
theorem c6_execution_limit (t : Int) (h : 1 ≤ t) :
    executionStepLimitOf t = max 1 (t - min 4 (t - 1)) ∧
    (4 < t → executionStepLimitOf t = t - 4) ∧
    (t ≤ 5 → executionStepLimitOf t = 1) := by
  simp only [executionStepLimitOf, totalStepsOf, reservedStepsOf,
    verificationReservedSteps]
  omega

/-- C6 witness: at the configured default `total_steps = 25` the execution
limit is `21 = 25 - 4`. -/
theorem c6_execution_limit_witness : executionStepLimitOf 25 = 21 := by
  have h := (c6_execution_limit 25 (by norm_num)).2.1 (by norm_num)
  norm_num at h
  exact h

/-! ## C2 — patch_file count mismatch -/

/-- C2 counterexample: with `find` occurring `k = 0` times and
`expected_replacements = 2 ≠ 0`, `patch_file` fails with the no-match
error, not the count-mismatch error the claim requires. -/
theorem c2_count_mismatch_counterexample :
    (patchFile wsW fsW rawA ("zzz").toList ("y").toList (some 2)).1 =
      .error .noMatch ∧
    (patchFile wsW fsW rawA ("zzz").toList ("y").toList (some 2)).1 ≠
      .error (.countMismatch 2 0) := by
  constructor
  · rfl
  · intro h
    rw [show (patchFile wsW fsW rawA ("zzz").toList ("y").toList (some 2)).1 =
        .error .noMatch from rfl] at h
    injection h with h2
    simp at h2

/-- C2 (amended): for a nonempty `find` occurring `k > 0` times and
`expected_replacements = e ≠ k`, `patch_file` fails with the count-mismatch
error and the filesystem is unchanged (when `k = 0` the no-match error
fires first instead). -/
theorem c2_count_mismatch (ws : PathC) (fs : FS) (raw : RawPath) (p : PathC)
    (find repl orig : Str) (e : Int) (k : Nat)
    (hres : resolvePath ws raw = .ok p) (hread : fsRead fs p = some orig)
    (hfind : find ≠ []) (hk : countOccs find orig = k) (hpos : 0 < k)
    (hne : (k : Int) ≠ e) :
    (patchFile ws fs raw find repl (some e)).1 = .error (.countMismatch e k) ∧
    (patchFile ws fs raw find repl (some e)).2 = fs := by
  unfold patchFile
  rw [if_neg hfind, hres]
  dsimp only
  rw [hread]
  dsimp only
  rw [hk, if_neg (Nat.pos_iff_ne_zero.mp hpos),
    if_pos (show expectedMismatch (some e) k = true by simp [expectedMismatch, hne])]
  exact ⟨rfl, rfl⟩

/-- C2 witness: `find = "test"` occurs once in `/ws/a.txt`; with
`expected_replacements = 5` the call fails with the count-mismatch error
and no write. -/
theorem c2_count_mismatch_witness :
    (patchFile wsW fsW rawA ("test").toList ("q").toList (some 5)).1 =
      .error (.countMismatch 5 1) ∧
    (patchFile wsW fsW rawA ("test").toList ("q").toList (some 5)).2 = fsW :=
  c2_count_mismatch wsW fsW rawA fileA ("test").toList ("q").toList
    (("hello world\nthis is a test\npattern123\n").toList) 5 1
    (by rfl) (by rfl) (by decide) (by rfl) (by decide) (by decide)

/-! ## C3 — patch_file replaces all occurrences -/

/-- C3: for a nonempty `find` occurring `k > 0` times and no
`expected_replacements`, `patch_file` writes the content with every
occurrence replaced and reports `replacements = k`. -/
theorem c3_patch_replaces_all (ws : PathC) (fs : FS) (raw : RawPath) (p : PathC)
    (find repl orig : Str) (k : Nat)
    (hres : resolvePath ws raw = .ok p) (hread : fsRead fs p = some orig)
    (hfind : find ≠ []) (hk : countOccs find orig = k) (hpos : 0 < k) :
    patchFile ws fs raw find repl none =
      (.ok { path := renderRel (p.drop ws.length), replacements := k,
             bytesWritten := utf8Len (replaceAll find repl orig) },
       fsWrite fs p (replaceAll find repl orig)) := by
  unfold patchFile
  rw [if_neg hfind, hres]
  dsimp only
  rw [hread]
  dsimp only
  rw [hk, if_neg (Nat.pos_iff_ne_zero.mp hpos)]
  rfl

/-- C3 witness: replacing the unique `pattern123` in `/ws/a.txt` writes the
patched content and reports one replacement. -/
theorem c3_patch_replaces_all_witness :
    patchFile wsW fsW rawA ("pattern123").toList ("X").toList none =
      (.ok { path := ("a.txt").toList, replacements := 1,
             bytesWritten := utf8Len (replaceAll ("pattern123").toList ("X").toList
               (("hello world\nthis is a test\npattern123\n").toList)) },
       fsWrite fsW fileA (replaceAll ("pattern123").toList ("X").toList
         (("hello world\nthis is a test\npattern123\n").toList))) :=
  c3_patch_replaces_all wsW fsW rawA fileA ("pattern123").toList ("X").toList
    (("hello world\nthis is a test\npattern123\n").toList) 1
    (by rfl) (by rfl) (by decide) (by rfl) (by decide)

/-! ## C10 — read_file beyond the last line -/

/-- C10: for a file of `n` lines and a range with `1 ≤ start`,
`start ≤ end`, `n < start`, `read_file` succeeds with empty content and
`total_lines = n` (no invalid-range error). -/
theorem c10_read_past_last_line (ws : PathC) (fs : FS) (raw : RawPath) (p : PathC)
    (content : Str) (start stop : Int)
    (hres : resolvePath ws raw = .ok p) (hread : fsRead fs p = some content)
    (h1 : 1 ≤ start) (h2 : start ≤ stop)
    (hn : ((pySplitlines content).length : Int) < start) :
    readFile ws fs raw start stop =
      .ok { path := renderRel (p.drop ws.length), start := start, stop := stop,
            content := [], totalLines := (pySplitlines content).length } := by
  unfold readFile
  rw [hres]
  dsimp only
  rw [hread]
  dsimp only
  rw [if_neg (by omega)]
  have hdrop : (pySplitlines content).drop (start - 1).toNat = [] := by
    apply List.drop_eq_nil_of_le
    omega
  unfold pySlice
  rw [hdrop, List.take_nil]
  rfl

/-- C10 witness: `/ws/a.txt` has 3 lines; reading lines 5–7 succeeds with
empty content and `total_lines = 3`. -/
theorem c10_read_past_last_line_witness :
    readFile wsW fsW rawA 5 7 =
      .ok { path := ("a.txt").toList, start := 5, stop := 7,
            content := [], totalLines := 3 } := by
  have h := c10_read_past_last_line wsW fsW rawA fileA
    (("hello world\nthis is a test\npattern123\n").toList) 5 7
    (by rfl) (by rfl) (by decide) (by decide) (by decide)
  rw [h]
  rfl

/-! ## C4 — run_shell policy rejection -/

/-- Scanning the pattern list finds an index when some pattern matches. -/
theorem findBlockedFrom_isSome (low : Str) :
    ∀ (ps : List BlockedPattern) (i : Nat),
      ps.any (fun p => patSearch p low) = true →
      ∃ j, findBlockedFrom i low ps = some j := by
  intro ps
  induction ps with
  | nil => intro i h; simp at h
  | cons p rest ih =>
    intro i h
    by_cases hp : patSearch p low
    · exact ⟨i, by simp [findBlockedFrom, hp]⟩
    · have hrest : rest.any (fun q => patSearch q low) = true := by
        simp only [List.any_cons, hp, Bool.false_or] at h
        exact h
      obtain ⟨j, hj⟩ := ih (i + 1) hrest
      exact ⟨j, by simp [findBlockedFrom, hp, hj]⟩

/-- C4: a command that is empty after stripping, or whose stripped
lowercased text matches a blocked pattern, makes `run_shell` fail with the
policy error — for every shell oracle, so the process is never spawned. -/
theorem c4_run_shell_policy (command : Str)
    (h : pyStrip command = [] ∨
      blockedCommandPatterns.any
        (fun p => patSearch p (toLowerStr (pyStrip command))) = true) :
    ∃ e : PolicyError, validateShellCommand command = some e ∧
      ∀ (exec : Str → Int → ExecOut) (t : Int),
        runShell exec command t = .error (.policy e) := by
  have hval : ∃ e, validateShellCommand command = some e := by
    rcases h with h | h
    · exact ⟨.emptyCommand, by unfold validateShellCommand; rw [if_pos h]⟩
    · by_cases hs : pyStrip command = []
      · exact ⟨.emptyCommand, by unfold validateShellCommand; rw [if_pos hs]⟩
      · obtain ⟨j, hj⟩ := findBlockedFrom_isSome (toLowerStr (pyStrip command))
          blockedCommandPatterns 0 h
        exact ⟨.blocked j, by unfold validateShellCommand; rw [if_neg hs, hj]⟩
  obtain ⟨e, he⟩ := hval
  refine ⟨e, he, fun exec t => ?_⟩
  unfold runShell
  rw [he]

/-- C4 witness: `sudo ls` is rejected by the second blocked pattern and the
shell oracle is never consulted. -/
theorem c4_run_shell_policy_witness :
    runShell execNop (("sudo ls").toList) 30 = .error (.policy (.blocked 1)) := by
  obtain ⟨e, hv, he⟩ := c4_run_shell_policy (("sudo ls").toList) (Or.inr (by decide))
  have h1 := he execNop 30
  have h2 : e = .blocked 1 := by
    have hd : validateShellCommand (("sudo ls").toList) = some (.blocked 1) := by decide
    rw [hd] at hv
    exact (Option.some.inj hv).symm
  rw [h2] at h1
  exact h1


/-! ## C1 — path-escape behavior of the sandboxed tools -/

/-- C1 counterexample: the escaping path `../x` makes `_resolve_path` fail,
yet `list_files` succeeds instead of failing with the path-escape error —
it falls back to listing the workspace root. -/
theorem c1_path_escape_counterexample :
    resolvePath wsW rawEsc = .error (.pathEscape rawEsc) ∧
    listFiles false wsW fsW rawEsc =
      .ok { count := 1, files := [("a.txt").toList] } :=
  ⟨rfl, rfl⟩

/-- C1 (amended): on a path that resolves outside the workspace,
`read_file`, `write_file` and `patch_file` (for a nonempty `find`) fail with
the path-escape error and leave the filesystem untouched, while
`list_files` and `search_text` do not fail: they fall back to the workspace
root as their target (behaving exactly as when called on `.`). -/
theorem c1_path_escape_amended (ws : PathC) (fs : FS) (raw : RawPath)
    (hasRg : Bool) (pattern content find repl : Str) (start stop : Int)
    (expected : Option Int)
    (hesc : resolvePath ws raw = .error (.pathEscape raw))
    (hws : normalizeComps ws = ws) (hfind : find ≠ []) :
    readFile ws fs raw start stop = .error (.pathEscape raw) ∧
    writeFile ws fs raw content = (.error (.pathEscape raw), fs) ∧
    patchFile ws fs raw find repl expected = (.error (.pathEscape raw), fs) ∧
    resolvePathOrWorkspace ws raw = ws ∧
    listFiles hasRg ws fs raw = listFiles hasRg ws fs rawDot ∧
    searchText hasRg ws fs pattern raw = searchText hasRg ws fs pattern rawDot := by
  have hworo : resolvePathOrWorkspace ws raw = ws := by
    unfold resolvePathOrWorkspace
    rw [hesc]
  have hpre : List.isPrefixOf ws ws = true :=
    List.isPrefixOf_iff_prefix.mpr (List.prefix_refl ws)
  have hdot : resolvePathOrWorkspace ws rawDot = ws := by
    unfold resolvePathOrWorkspace resolvePath rawDot
    simp [hws, hpre]
  refine ⟨?_, ?_, ?_, hworo, ?_, ?_⟩
  · unfold readFile
    rw [hesc]
  · unfold writeFile
    rw [hesc]
  · unfold patchFile
    rw [if_neg hfind, hesc]
  · unfold listFiles
    rw [hworo, hdot]
    simp [fsExists]
  · unfold searchText
    rw [hworo, hdot]
    simp [fsExists]

/-- C1 witness: the concrete escaping path `../x` on the one-file
workspace. -/
theorem c1_path_escape_amended_witness :
    readFile wsW fsW rawEsc 1 5 = .error (.pathEscape rawEsc) ∧
    writeFile wsW fsW rawEsc ("z").toList = (.error (.pathEscape rawEsc), fsW) ∧
    patchFile wsW fsW rawEsc ("a").toList ("b").toList none =
      (.error (.pathEscape rawEsc), fsW) ∧
    resolvePathOrWorkspace wsW rawEsc = wsW ∧
    listFiles false wsW fsW rawEsc = listFiles false wsW fsW rawDot ∧
    searchText false wsW fsW ("a").toList rawEsc =
      searchText false wsW fsW ("a").toList rawDot :=
  c1_path_escape_amended wsW fsW rawEsc false ("a").toList ("z").toList
    ("a").toList ("b").toList 1 5 none (by rfl) (by rfl) (by decide)


/-! ## C5 — failure circuit breaker -/

/-- Bumping a signature increments exactly its count. -/
theorem getCount_bumpCount (counts : List (Str × Nat)) (sig : Str) :
    getCount (bumpCount counts sig) sig = getCount counts sig + 1 := by
  induction counts with
  | nil => simp [bumpCount, getCount]
  | cons e rest ih =>
    by_cases he : e.1 = sig
    · simp [bumpCount, getCount, he]
    · simp only [bumpCount, getCount, he, if_neg he, List.find?]
      simp only [getCount] at ih
      simp [he, ih]

/-- C5: when a tool dispatch fails with a signature already seen twice this
turn, the loop aborts on this third occurrence with the message naming the
tool and the last error, and the run terminates immediately — no further
action is attempted, whatever execution budget remains. -/
theorem c5_circuit_breaker (env : LoopEnv) (ws : PathC) (t : Int)
    (userInput : Str) (s : LoopState) (raw actionData : JObj) (t0 tname : Str)
    (targs : JObj) (e : DispatchError)
    (hmodel : env.modelO s.stepIdx = .ok raw)
    (hnorm : normalizeAction raw = .ok actionData)
    (htype : jGet actionData ("type").toList = some (.jstr ("tool").toList))
    (hval : validateToolAction actionData = some (t0, tname, targs))
    (hdisp : (dispatchTool env.tools ws t s.fs tname
        (repairToolArgs tname targs userInput)).1 = .error e)
    (hcount : getCount s.errorCounts (sigOf tname (dispatchErrText e)) = 2) :
    loopStep env ws t userInput s =
      .finish (abortMessage tname (dispatchErrText e)) ∧
    ∀ n : Nat, runLoop env ws t userInput (n + 1) s =
      .msg (abortMessage tname (dispatchErrText e)) := by
  have hstep : loopStep env ws t userInput s =
      .finish (abortMessage tname (dispatchErrText e)) := by
    unfold loopStep
    rw [hmodel]
    dsimp only
    rw [hnorm]
    dsimp only
    rw [htype]
    dsimp only
    rw [if_neg (by decide), if_pos rfl, hval]
    dsimp only
    rw [hdisp]
    dsimp only
    rw [if_pos]
    rw [getCount_bumpCount, hcount]
  refine ⟨hstep, fun n => ?_⟩
  unfold runLoop
  rw [hstep]

/-- The model oracle of the C5 witness: it always asks for `read_file`
with no arguments. -/
def envFailW : LoopEnv :=
  { tools := { hasRg := false, exec := execNop }
    modelO := fun _ => .ok [(("type").toList, .jstr ("read_file").toList)]
    verifierO := ("ok").toList }

/-- The failure signature of the C5 witness. -/
def sigFailW : Str :=
  sigOf ("read_file").toList
    (toolErrText (.missingArg ("path").toList ("read_file").toList))

/-- The C5 witness state: the same signature already failed twice. -/
def stateFailW : LoopState :=
  { stepIdx := 0
    fs := []
    history := []
    editedFiles := []
    latestVerify := none
    errorCounts := [(sigFailW, 2)] }

/-- C5 witness: the third identical missing-argument failure aborts the
turn with the abort message. -/
theorem c5_circuit_breaker_witness :
    loopStep envFailW wsW 30 ("no hints here").toList stateFailW =
      .finish (abortMessage ("read_file").toList
        (toolErrText (.missingArg ("path").toList ("read_file").toList))) :=
  (c5_circuit_breaker envFailW wsW 30 ("no hints here").toList stateFailW
    [(("type").toList, .jstr ("read_file").toList)]
    [(("type").toList, .jstr ("tool").toList),
     (("name").toList, .jstr ("read_file").toList),
     (("args").toList, .jobj [])]
    (("tool").toList) (("read_file").toList) []
    (.terr (.missingArg ("path").toList ("read_file").toList))
    rfl rfl rfl rfl rfl rfl).1

/-! ## C8 — progress-only messages do not terminate the turn -/

/-- C8: a candidate final message containing a forward-looking phrase and
no completion phrase does not end the turn: the loop appends it to history
together with the corrective instruction and continues. -/
theorem c8_progress_only_continues (env : LoopEnv) (ws : PathC) (t : Int)
    (userInput : Str) (s : LoopState) (raw actionData : JObj) (t0 content : Str)
    (hmodel : env.modelO s.stepIdx = .ok raw)
    (hnorm : normalizeAction raw = .ok actionData)
    (htype : jGet actionData ("type").toList = some (.jstr ("message").toList))
    (hval : validateMessageAction actionData = some (t0, content))
    (hprog : progressMarkers.any
      (fun m => containsSub m (pyStrip (toLowerStr content))) = true)
    (hcomp : completionMarkers.any
      (fun m => containsSub m (pyStrip (toLowerStr content))) = false) :
    loopStep env ws t userInput s = .cont { s with
      stepIdx := s.stepIdx + 1
      history := s.history ++
        [(("assistant").toList, HContent.text content),
         (("user").toList, HContent.text correctiveText)] } := by
  have hpo : isProgressOnlyMessage content = true := by
    unfold isProgressOnlyMessage
    dsimp only
    rw [hprog, hcomp]
    rfl
  unfold loopStep
  rw [hmodel]
  dsimp only
  rw [hnorm]
  dsimp only
  rw [htype]
  dsimp only
  rw [if_pos rfl, hval]
  dsimp only
  rw [hpo]
  rfl

/-- The model oracle of the C8 witness: a progress-only reply. -/
def envProgW : LoopEnv :=
  { tools := { hasRg := false, exec := execNop }
    modelO := fun _ => .ok
      [(("type").toList, .jstr ("message").toList),
       (("content").toList, .jstr ("I will now proceed with the fix").toList)]
    verifierO := ("ok").toList }

/-- The C8 witness state. -/
def stateProgW : LoopState :=
  { stepIdx := 0
    fs := []
    history := []
    editedFiles := []
    latestVerify := none
    errorCounts := [] }

/-- C8 witness: "I will now proceed with the fix" (a progress phrase, no
completion phrase) is appended together with the corrective instruction and
the loop continues. -/
theorem c8_progress_only_continues_witness :
    loopStep envProgW wsW 30 ("x").toList stateProgW = .cont { stateProgW with
      stepIdx := stateProgW.stepIdx + 1
      history := stateProgW.history ++
        [(("assistant").toList,
          HContent.text ("I will now proceed with the fix").toList),
         (("user").toList, HContent.text correctiveText)] } :=
  c8_progress_only_continues envProgW wsW 30 ("x").toList stateProgW
    [(("type").toList, .jstr ("message").toList),
     (("content").toList, .jstr ("I will now proceed with the fix").toList)]
    [(("type").toList, .jstr ("message").toList),
     (("content").toList, .jstr ("I will now proceed with the fix").toList)]
    (("message").toList) (("I will now proceed with the fix").toList)
    rfl rfl rfl rfl (by decide) (by decide)


/-! ## C9 — action normalizer rules -/

/-- The coercion-by-name step, compared with its Boolean-guard phrasing
(used for the leaves of the C9 case analysis). -/
theorem ok_coerce_eq (d : JObj) :
    (Except.ok (match jGet d ("name").toList, jGet d ("args").toList with
      | some (.jstr n), some (.jobj _) =>
        if knownToolNames.contains n then
          jSet d ("type").toList (.jstr ("tool").toList)
        else d
      | _, _ => d) : Except PyTypeError JObj) =
    (if (match jGet d ("name").toList, jGet d ("args").toList with
          | some (.jstr n), some (.jobj _) => knownToolNames.contains n
          | _, _ => false) = true then
       Except.ok (jSet d ("type").toList (.jstr ("tool").toList))
     else Except.ok d) := by
  rcases hn : jGet d ("name").toList with _ | nv
  · rfl
  · rcases ha : jGet d ("args").toList with _ | av
    · cases nv <;> rfl
    · cases nv with
      | jstr n =>
        cases av with
        | jobj o =>
          dsimp only
          by_cases hk : knownToolNames.contains n = true
          · rw [if_pos hk, if_pos hk]
          · rw [if_neg hk, if_neg hk]
        | jstr s => rfl
        | jint i => rfl
        | jbool b => rfl
        | jnull => rfl
        | jarr l => rfl
      | jint i => cases av <;> rfl
      | jbool b => cases av <;> rfl
      | jnull => cases av <;> rfl
      | jarr l => cases av <;> rfl
      | jobj o => cases av <;> rfl

/-- C9 counterexample: an object whose `type` value is a JSON array makes
the normalizer raise an uncaught `TypeError` (the set-membership test
hashes the value), instead of passing the object through unchanged as the
claim's final rule demands. -/
theorem c9_normalizer_counterexample :
    normalizeAction [(("type").toList, .jarr [])] = .error .unhashable ∧
    normalizeAction [(("type").toList, .jarr [])] ≠
      .ok [(("type").toList, .jarr [])] := by
  refine ⟨rfl, ?_⟩
  intro h
  exact Except.noConfusion h

/-- C9 (amended): the normalizer applies its rules in order — `tool` and
`message` types pass through; a type naming a known tool becomes that tool
call with `args` defaulted; a known `name` with a mapping `args` coerces
the type to `tool`; any other object passes through unchanged — except
that an object whose `type` value is an array or mapping raises an
uncaught `TypeError` at the first membership test.  `normalizeActionSpec`
is the rule-by-rule transcription of the amended claim. -/
theorem c9_normalizer_rules (d : JObj) : normalizeAction d = normalizeActionSpec d := by
  unfold normalizeAction normalizeActionSpec
  dsimp only
  rcases htv : jGet d ("type").toList with _ | tv
  · exact ok_coerce_eq d
  · cases tv with
    | jstr t =>
      dsimp only
      by_cases hc1 : t = ("tool").toList ∨ t = ("message").toList
      · rw [if_pos hc1, decide_eq_true hc1]
        rfl
      · rw [if_neg hc1, decide_eq_false hc1]
        by_cases hc2 : knownToolNames.contains t = true
        · rw [if_pos hc2, if_pos hc2]
          rfl
        · rw [if_neg hc2, if_neg hc2]
          exact ok_coerce_eq d
    | jint n => exact ok_coerce_eq d
    | jbool b => exact ok_coerce_eq d
    | jnull => exact ok_coerce_eq d
    | jarr l => rfl
    | jobj o => rfl

/-! ## C7 — search_text equivalence of the two matcher paths

Scenario fixtures: the workspace holds one small text file containing the
marker `pattern123` on exactly one line, one binary file (a NUL byte within
its first 1024 bytes), and one text file of 1048577 characters (over
1 MiB). -/

def fileB : PathC := wsW ++ [("b.bin").toList]
def fileC : PathC := wsW ++ [("c.txt").toList]
def smallContent : Str := ("hello world\nthis is a test\npattern123\n").toList
def binContent : Str := '\x00' :: ("binjunk").toList
def bigContent : Str := List.replicate 1048577 'a'
def fs7 : FS := [(fileA, smallContent), (fileB, binContent), (fileC, bigContent)]
def pat7 : Str := ("pattern123").toList

/-- The oversized file measures 1048577 bytes. -/
theorem length_bigContent : bigContent.length = 1048577 := List.length_replicate _ _

/-- The oversized file trips the size heuristic. -/
theorem skip_bigContent : shouldSkipContent bigContent = true := by
  unfold shouldSkipContent
  rw [length_bigContent]
  norm_num

/-- Membership test on a constant list, without walking it. -/
theorem contains_replicate (n : Nat) (a c : Char) :
    (List.replicate n a).contains c = (decide (n ≠ 0) && (c == a)) := by
  induction n with
  | zero => rfl
  | succ m ih =>
    rw [List.replicate_succ]
    show (c == a || (List.replicate m a).contains c) = _
    rw [ih]
    cases hca : c == a <;> simp [hca]

/-- The oversized file is pure text (no NUL byte). -/
theorem not_contains_bigContent : bigContent.contains '\x00' = false := by
  rw [show bigContent.contains '\x00' =
      (decide ((1048577 : Nat) ≠ 0) && ('\x00' == 'a')) from
      contains_replicate 1048577 'a' '\x00']
  decide

/-- A newline-free constant content is one single line. -/
theorem splitlines_replicate (n : Nat) :
    pySplitlines (List.replicate (n + 1) 'a') = [List.replicate (n + 1) 'a'] := by
  induction n with
  | zero => rfl
  | succ m ih =>
    rw [List.replicate_succ]
    unfold pySplitlines
    rw [if_neg (by decide), ih]

/-- A substring draws its characters from the haystack. -/
theorem mem_of_containsSub {m l : Str} (h : containsSub m l = true) {x : Char}
    (hx : x ∈ m) : x ∈ l := by
  induction l with
  | nil =>
    unfold containsSub at h
    cases m with
    | nil => cases hx
    | cons c rest => simp [List.isPrefixOf] at h
  | cons c rest ih =>
    unfold containsSub at h
    cases (Bool.or_eq_true _ _).mp h with
    | inl hp => exact (List.isPrefixOf_iff_prefix.mp hp).subset hx
    | inr hc => exact List.mem_cons_of_mem _ (ih hc)

/-- The marker does not occur in the oversized file. -/
theorem no_linematch_bigContent : lineMatches pat7 bigContent = false := by
  unfold lineMatches
  by_contra hne
  rw [Bool.not_eq_false] at hne
  have hp : 'p' ∈ bigContent := mem_of_containsSub hne (by decide)
  rw [show bigContent = List.replicate 1048577 'a' from rfl, List.mem_replicate] at hp
  exact absurd hp.2 (by decide)

/-- The oversized file contributes no matching line. -/
theorem matching_bigContent : matchingLines pat7 bigContent = [] := by
  unfold matchingLines
  rw [show pySplitlines bigContent = [bigContent] from splitlines_replicate 1048576]
  simp [no_linematch_bigContent]

/-- The fast matcher reports the one marker line of the small file. -/
theorem rg_entry_a : rgEntryLines wsW pat7 (fileA, smallContent) =
    [("/ws/a.txt:3:pattern123").toList] := by decide

/-- The fast matcher skips the binary file. -/
theorem rg_entry_b : rgEntryLines wsW pat7 (fileB, binContent) = [] := by decide

/-- The fast matcher finds nothing in the oversized file. -/
theorem rg_entry_c : rgEntryLines wsW pat7 (fileC, bigContent) = [] := by
  unfold rgEntryLines
  rw [if_pos ⟨by decide, by rw [not_contains_bigContent]; decide⟩, matching_bigContent]
  rfl

/-- The fast matcher output for the scenario: exactly one line. -/
theorem rg_model_7 : rgSearchModel fs7 wsW pat7 =
    { returncode := 0, stdoutLines := [("/ws/a.txt:3:pattern123").toList],
      stderr := [] } := by
  unfold rgSearchModel fs7
  rw [List.map_cons, List.map_cons, List.map_cons, List.map_nil,
    rg_entry_a, rg_entry_b, rg_entry_c]
  rfl

/-- The manual fallback reports the one marker line of the small file. -/
theorem manual_a : manualFileMatches wsW fs7 pat7 fileA =
    [("a.txt:3:pattern123").toList] := by decide

/-- The manual fallback skips the binary file. -/
theorem manual_b : manualFileMatches wsW fs7 pat7 fileB = [] := by decide

/-- The manual fallback skips the oversized file. -/
theorem manual_c : manualFileMatches wsW fs7 pat7 fileC = [] := by
  unfold manualFileMatches
  rw [show fsRead fs7 fileC = some bigContent from rfl]
  dsimp only
  rw [if_pos skip_bigContent]

/-- C7: over a directory with a small marker file, a binary file, and an
oversized text file, `search_text` returns exactly one match naming the
small text file — identically (same single match line, same count) on the
fast-matcher path and the manual fallback path; the only difference is the
`search_mode` field that the source adds on the fallback path alone. -/
theorem c7_search_equivalence :
    searchText true wsW fs7 pat7 rawDot =
      .ok { count := 1, found := [("a.txt:3:pattern123").toList],
            searchMode := none } ∧
    searchText false wsW fs7 pat7 rawDot =
      .ok { count := 1, found := [("a.txt:3:pattern123").toList],
            searchMode := some ("regex").toList } := by
  constructor
  · unfold searchText
    rw [show resolvePathOrWorkspace wsW rawDot = wsW from rfl]
    rw [if_neg (show ¬ ¬ fsExists wsW fs7 wsW = true from by simp [fsExists])]
    rw [if_pos rfl]
    rw [rg_model_7]
    rfl
  · unfold searchText
    rw [show resolvePathOrWorkspace wsW rawDot = wsW from rfl]
    rw [if_neg (show ¬ ¬ fsExists wsW fs7 wsW = true from by simp [fsExists])]
    rw [if_neg (by decide)]
    rw [if_neg (by decide)]
    rw [show (filesUnder fs7 wsW).map (fun x => x.1) = [fileA, fileB, fileC] from rfl]
    dsimp only
    rw [List.map_cons, List.map_cons, List.map_cons, List.map_nil,
      manual_a, manual_b, manual_c]
    rfl

end CodingAgent
